import Mathlib

/-!
Verification of the cross-backend equivalence harness of the iree-samples
repository against its design specification.

The two source files embedded here are
`tflitehub/mobilenet_v3_test.py` (the tolerance comparison of the TFLite
harness subclass) and `iree-torch/torchscript_resnet18_e2e.py` (the top-3
prediction printer, the IREE invoker, and the compile/load backend).

Modelling conventions:
* numpy / torch float arrays are modelled as `List ℚ`; result lists (lists of
  arrays) as `List (List ℚ)`.  Floating-point rounding is out of scope: the
  arithmetic of the comparison formulas is carried out exactly in ℚ.
* the float softmax used for the printed percentages and the imagenet label
  table are opaque to every claim, so they are passed as parameters
  (`softmaxPct`, `labels`) rather than hard-coded.
* external library entry points (`ireec.compile_str`, the `ireert` loading
  chain) are opaque collaborators of the repository; they appear as abstract
  `Except`-returning fields of a backend model.
-/

namespace IreeSamples

/-! ### tflitehub/mobilenet_v3_test.py -/

/-- numpy's default relative tolerance for `numpy.isclose` (1e-5).  The call in
`MobilenetV3Test.compare_results` overrides only `atol`, so this default stays
in force. -/
def numpyRtolDefault : ℚ := 1 / 100000

/-- The absolute tolerance passed by `MobilenetV3Test.compare_results`
(`atol=1e-4`). -/
def mobilenetAtol : ℚ := 1 / 10000

/-- numpy's `absolute`, written out so that it evaluates by kernel reduction
(the ℚ lattice `|·|` does not). -/
def absQ (q : ℚ) : ℚ := if q < 0 then -q else q

/-- Binary maximum, written out so that it evaluates by kernel reduction. -/
def maxQ (a b : ℚ) : ℚ := if a ≤ b then b else a

theorem absQ_eq_abs (q : ℚ) : absQ q = |q| := by
  by_cases h : q < 0
  · rw [absQ, if_pos h, abs_of_neg h]
  · rw [absQ, if_neg h, abs_of_nonneg (le_of_not_lt h)]

theorem maxQ_eq_max (a b : ℚ) : maxQ a b = max a b := by
  by_cases h : a ≤ b
  · rw [maxQ, if_pos h, max_eq_right h]
  · rw [maxQ, if_neg h, max_eq_left (le_of_not_le h)]

/-- Scalar `numpy.isclose(a, b, rtol, atol)`: `|a - b| <= atol + rtol * |b|`
(numpy's documented formula; NaN/inf handling does not arise over ℚ). -/
def isclose (rtol atol a b : ℚ) : Bool :=
  decide (absQ (a - b) ≤ atol + rtol * absQ b)

/-- Elementwise `numpy.isclose(a, b, ...).all()` over two arrays. -/
def iscloseAll (rtol atol : ℚ) (a b : List ℚ) : Bool :=
  (List.zipWith (isclose rtol atol) a b).all id

/-- The assertion body of `MobilenetV3Test.compare_results` with the hard-coded
`atol=1e-4` generalized to a parameter:
`numpy.isclose(iree_results[0], tflite_results[0], atol=atol).all()`.
Only index 0 of each result list is read (`headD` models the `[0]` indexing;
the harness always passes nonempty result lists). -/
def mobilenetCompareAt (atol : ℚ) (iree_results tflite_results : List (List ℚ)) : Bool :=
  iscloseAll numpyRtolDefault atol (iree_results.headD []) (tflite_results.headD [])

/-- `MobilenetV3Test.compare_results` (the subclass's own tolerance assertion):
`self.assertTrue(numpy.isclose(iree_results[0], tflite_results[0], atol=1e-4).all())`. -/
def compare_results (iree_results tflite_results : List (List ℚ)) : Bool :=
  mobilenetCompareAt mobilenetAtol iree_results tflite_results

/-- The maximum elementwise absolute deviation between two arrays (the derived
metric of the spec's `ComparisonResult`; the code itself never computes it). -/
def maxAbsDev (a b : List ℚ) : ℚ :=
  (List.zipWith (fun x y => absQ (x - y)) a b).foldr maxQ 0

theorem isclose_iff (rtol atol a b : ℚ) :
    isclose rtol atol a b = true ↔ |a - b| ≤ atol + rtol * |b| := by
  simp [isclose, absQ_eq_abs]

theorem iscloseAll_iff (rtol atol : ℚ) (a b : List ℚ) :
    iscloseAll rtol atol a b = true ↔
      ∀ p ∈ a.zip b, |p.1 - p.2| ≤ atol + rtol * |p.2| := by
  induction a generalizing b with
  | nil => simp [iscloseAll]
  | cons x xs ih =>
    cases b with
    | nil => simp [iscloseAll]
    | cons y ys =>
      have hxs := ih ys
      simp only [iscloseAll] at hxs
      simp only [iscloseAll, List.zipWith_cons_cons, List.all_cons, Bool.and_eq_true, id,
        List.zip_cons_cons, List.forall_mem_cons, isclose_iff, hxs]

theorem compare_results_eq (iree_results tflite_results : List (List ℚ)) :
    compare_results iree_results tflite_results =
      iscloseAll numpyRtolDefault mobilenetAtol
        (iree_results.headD []) (tflite_results.headD []) := rfl

/-! ### iree-torch/torchscript_resnet18_e2e.py -/

/-- The index permutation computed by `torch.sort(res, descending=True)` on the
single row of a `[1, N]` score tensor: the indices `0..N-1` sorted so that the
scores they select are non-increasing (ties resolved stably, as by a stable
sort on distinct insertion). -/
def sortIndicesDesc (res : List ℚ) : List ℕ :=
  List.insertionSort (fun i j => res.getD j 0 ≤ res.getD i 0) (List.range res.length)

/-- The `indexes[0][:3]` slice of `top3_possibilities`: the indices of the three
highest scores, in descending score order. -/
def top3Indices (res : List ℚ) : List ℕ :=
  (sortIndicesDesc res).take 3

/-- `top3_possibilities(res)`: pairs `(labels[idx], percentage[idx].item())` for
the top three sorted indices.  The float softmax percentage and the label table
are opaque parameters (`softmaxPct`, `labels`); the index selection is the
logic under verification. -/
def top3_possibilities (softmaxPct : List ℚ → ℕ → ℚ) (labels : ℕ → String)
    (res : List ℚ) : List (String × ℚ) :=
  (top3Indices res).map (fun idx => (labels idx, softmaxPct res idx))

/-- `img.numpy()`: the torch-tensor-to-numpy-array conversion is a zero-copy
view of the same buffer, so on the value level it is the identity. -/
def tensorToNumpy {T : Type} (t : T) : T := t

/-- `predictions(torch_func, jit_func, img, labels)`: computes and prints the
golden (baseline) top-3 list from `torch_func(img)` and the candidate top-3
list from `jit_func(img.numpy())`.  Its entire observable output is the pair of
printed lists; the function compares nothing and returns no verdict. -/
def predictions {T : Type} (softmaxPct : List ℚ → ℕ → ℚ) (labels : ℕ → String)
    (torch_func jit_func : T → List ℚ) (img : T) :
    List (String × ℚ) × List (String × ℚ) :=
  (top3_possibilities softmaxPct labels (torch_func img),
   top3_possibilities softmaxPct labels (jit_func (tensorToNumpy img)))

/-- Errors that can surface when invoking an entry point of a loaded module:
the `self._iree_module[function_name]` lookup inside `invoke` fails (Python
`KeyError`) when the module has no such entry point. -/
inductive InvokeError
  | unknownEntryPoint (function_name : String)

/-- `IREEInvoker`: wraps a loaded module, modelled by its entry-point table
`iree_module` mapping function names to callables. -/
structure IREEInvoker where
  iree_module : String → Option (List ℚ → List ℚ)

/-- The closure `invoke(*args)` built by `IREEInvoker.__getattr__`: it looks up
`self._iree_module[function_name]` at call time and applies it; the lookup
failure (if any) happens here, not at attribute access. -/
def invoke (self : IREEInvoker) (function_name : String) (args : List ℚ) :
    Except InvokeError (List ℚ) :=
  match self.iree_module function_name with
  | some f => Except.ok (f args)
  | none => Except.error (InvokeError.unknownEntryPoint function_name)

/-- `IREEInvoker.__getattr__(function_name)`: unconditionally returns the
`invoke` closure.  The `Except` result type records that Python attribute
access could in principle raise; this implementation never does. -/
def getattrImpl (self : IREEInvoker) (function_name : String) :
    Except InvokeError (List ℚ → Except InvokeError (List ℚ)) :=
  Except.ok (invoke self function_name)

/-- Modelled from the spec: the failure taxonomy of `compile_and_load`.  The
code propagates the external libraries' exceptions unwrapped; the spec names
the compile-step failure domain `CompilationError` and the load-step failure
domain `LoadError`. -/
inductive HarnessError
  | compilationError (msg : String)
  | loadError (msg : String)

/-- The external collaborators of `IREELinalgOnTensorsBackend`, abstracted:
`compile_str` is `ireec.compile_str(..., target_backends=["dylib-llvm-aot"])`
(MLIR assembly to flatbuffer bytes, or a compiler diagnostic), and
`from_flatbuffer` is the `ireert` loading chain (`VmModule.from_flatbuffer`,
`Config`, `SystemContext`, `add_vm_module`, `ctx.modules.module`) yielding the
loaded module's entry-point table, or a runtime diagnostic. -/
structure IREEBackendModel where
  compile_str : String → Except String String
  from_flatbuffer : String → Except String (String → Option (List ℚ → List ℚ))

/-- `IREELinalgOnTensorsBackend.compile(imported_module)`: delegates to
`ireec.compile_str`; a failure there is a compile-domain failure. -/
def backendCompile (B : IREEBackendModel) (imported_module : String) :
    Except HarnessError String :=
  match B.compile_str imported_module with
  | Except.ok fb => Except.ok fb
  | Except.error e => Except.error (HarnessError.compilationError e)

/-- `IREELinalgOnTensorsBackend.load(flatbuffer)`: delegates to the `ireert`
loading chain and wraps the loaded module in an `IREEInvoker`; a failure there
is a load-domain failure. -/
def backendLoad (B : IREEBackendModel) (flatbuffer : String) :
    Except HarnessError IREEInvoker :=
  match B.from_flatbuffer flatbuffer with
  | Except.ok m => Except.ok ⟨m⟩
  | Except.error e => Except.error (HarnessError.loadError e)

/-- The harness's `compile_and_load` sequencing: `compiled = backend.compile(mb.module)`
followed by `jit_module = backend.load(compiled)`. -/
def compile_and_load (B : IREEBackendModel) (imported_module : String) :
    Except HarnessError IREEInvoker :=
  match backendCompile B imported_module with
  | Except.ok fb => backendLoad B fb
  | Except.error e => Except.error e

/-- One end-to-end verdict of the TFLite harness: run the baseline and the
candidate (each indexed by a run counter `s`, so that run-to-run
nondeterminism of the executors is representable) and compare.  In
`compare_results` the candidate results are the first argument. -/
def harnessVerdict (runBaseline runCandidate : ℕ → List (List ℚ)) (s : ℕ) : Bool :=
  compare_results (runCandidate s) (runBaseline s)

/-! ### Claim theorems -/

/-- C1 counterexample: the comparison is not a pure absolute-tolerance check.
With baseline element 10 and candidate element 10.00015 the absolute deviation
is 1.5e-4 > ε = 1e-4, yet the comparison passes, because `numpy.isclose` keeps
its default relative tolerance rtol = 1e-5 and 1.5e-4 ≤ 1e-4 + 1e-5·10. -/
theorem c1_counterexample :
    compare_results [[200003 / 20000]] [[10]] = true ∧
    ¬ maxAbsDev [200003 / 20000] [10] ≤ mobilenetAtol :=
  ⟨by norm_num [compare_results, mobilenetCompareAt, iscloseAll, isclose, absQ,
      numpyRtolDefault, mobilenetAtol],
   by norm_num [maxAbsDev, absQ, maxQ, mobilenetAtol]⟩

/-- C1 (amended): the comparison passes iff every aligned element pair
satisfies numpy's combined bound `|cand − base| ≤ atol + rtol·|base|` with
atol = 1e-4 and numpy's default rtol = 1e-5; a relative-tolerance component is
present, so passing is not equivalent to the maximum absolute deviation being
at most ε. -/
theorem c1_theorem (iree_results tflite_results : List (List ℚ)) :
    compare_results iree_results tflite_results = true ↔
      ∀ p ∈ (iree_results.headD []).zip (tflite_results.headD []),
        |p.1 - p.2| ≤ mobilenetAtol + numpyRtolDefault * |p.2| :=
  iscloseAll_iff _ _ _ _

/-- C2: for baseline [0.7, 0.2, 0.1] and candidate [0.70005, 0.19998, 0.10001]
the comparison passes and the maximum elementwise absolute deviation is
exactly 5e-5. -/
theorem c2_theorem :
    compare_results [[70005 / 100000, 19998 / 100000, 10001 / 100000]]
        [[7 / 10, 2 / 10, 1 / 10]] = true ∧
    maxAbsDev [70005 / 100000, 19998 / 100000, 10001 / 100000]
        [7 / 10, 2 / 10, 1 / 10] = 1 / 20000 :=
  ⟨by norm_num [compare_results, mobilenetCompareAt, iscloseAll, isclose, absQ,
      numpyRtolDefault, mobilenetAtol],
   by norm_num [maxAbsDev, absQ, maxQ]⟩

/-- C4: tolerance monotonicity — if the comparison passes at absolute
tolerance ε, it passes at every ε' ≥ ε (the relative term is unchanged). -/
theorem c4_theorem (ε ε' : ℚ) (iree_results tflite_results : List (List ℚ))
    (hle : ε ≤ ε')
    (hpass : mobilenetCompareAt ε iree_results tflite_results = true) :
    mobilenetCompareAt ε' iree_results tflite_results = true := by
  rw [mobilenetCompareAt, iscloseAll_iff] at hpass ⊢
  intro p hp
  exact le_trans (hpass p hp) (add_le_add_right hle _)

/-- C4 witness: a concrete pass at ε = 1e-4 carried to ε' = 1e-2. -/
theorem c4_witness :
    (1 / 10000 : ℚ) ≤ 1 / 100 ∧
    mobilenetCompareAt (1 / 10000) [[1]] [[1]] = true ∧
    mobilenetCompareAt (1 / 100) [[1]] [[1]] = true :=
  ⟨by norm_num,
   by norm_num [mobilenetCompareAt, iscloseAll, isclose, absQ, numpyRtolDefault],
   c4_theorem (1 / 10000) (1 / 100) [[1]] [[1]] (by norm_num)
     (by norm_num [mobilenetCompareAt, iscloseAll, isclose, absQ, numpyRtolDefault])⟩

/-- C7 counterexample: the comparison's entire observable report is the single
boolean handed to `assertTrue`; it carries no maximum deviation and no
offending index.  Two mismatching candidate/baseline pairs with different
maximum deviations (0.2 and 0.4) produce identical reports. -/
theorem c7_counterexample :
    compare_results [[7 / 10]] [[1 / 2]] = false ∧
    compare_results [[9 / 10]] [[1 / 2]] = false ∧
    compare_results [[7 / 10]] [[1 / 2]] = compare_results [[9 / 10]] [[1 / 2]] ∧
    maxAbsDev [7 / 10] [1 / 2] ≠ maxAbsDev [9 / 10] [1 / 2] :=
  ⟨by norm_num [compare_results, mobilenetCompareAt, iscloseAll, isclose, absQ,
      numpyRtolDefault, mobilenetAtol],
   by norm_num [compare_results, mobilenetCompareAt, iscloseAll, isclose, absQ,
      numpyRtolDefault, mobilenetAtol],
   by norm_num [compare_results, mobilenetCompareAt, iscloseAll, isclose, absQ,
      numpyRtolDefault, mobilenetAtol],
   by norm_num [maxAbsDev, absQ, maxQ]⟩

/-- C7 (amended): on divergence the harness reports only a failed boolean
assertion — the verdict is false exactly when some aligned element pair
violates the closeness bound; no `ComparisonResult` record, maximum deviation
or offending index is produced. -/
theorem c7_theorem (iree_results tflite_results : List (List ℚ)) :
    compare_results iree_results tflite_results = false ↔
      ∃ p ∈ (iree_results.headD []).zip (tflite_results.headD []),
        mobilenetAtol + numpyRtolDefault * |p.2| < |p.1 - p.2| := by
  rw [← Bool.not_eq_true, compare_results_eq, iscloseAll_iff]
  push_neg
  exact Iff.rfl

/-- C10: the subclass's tolerance assertion reads only index 0 of each result
list — the verdict is a function of the first result arrays alone, so elements
of any later result array are never checked, however far they diverge. -/
theorem c10_theorem (iree_results tflite_results iree_results2 tflite_results2 : List (List ℚ))
    (h1 : iree_results.headD [] = iree_results2.headD [])
    (h2 : tflite_results.headD [] = tflite_results2.headD []) :
    compare_results iree_results tflite_results =
      compare_results iree_results2 tflite_results2 := by
  rw [compare_results_eq, compare_results_eq, h1, h2]

/-- C10 witness: result lists diverging wildly past index 0 get the same
verdict as ones agreeing everywhere. -/
theorem c10_witness :
    ([[(1 : ℚ)], [5]].headD [] = [[(1 : ℚ)], [1000]].headD []) ∧
    ([[(1 : ℚ)], [7]].headD [] = [[(1 : ℚ)], [0]].headD []) ∧
    compare_results [[(1 : ℚ)], [5]] [[(1 : ℚ)], [7]] =
      compare_results [[(1 : ℚ)], [1000]] [[(1 : ℚ)], [0]] :=
  ⟨rfl, rfl, c10_theorem _ _ _ _ rfl rfl⟩

/-- C3 counterexample: the harness performs no top-3 agreement check and
declares no failure.  On concrete baseline scores [10, 1, 2, 3] (top-3 index
set {0, 3, 2}) and candidate scores [10, 4, 1, 2] (top-3 index set {0, 1, 3})
the index sets differ, yet `predictions` completes normally and its entire
output is the pair of printed top-3 lists — there is no failed verdict, and no
verdict at all. -/
theorem c3_counterexample :
    (top3Indices [10, 1, 2, 3]).toFinset ≠ (top3Indices [10, 4, 1, 2]).toFinset ∧
    predictions (fun res i => res.getD i 0) (fun i => toString i)
        (fun _ : Unit => [10, 1, 2, 3]) (fun _ : Unit => [10, 4, 1, 2]) () =
      ([("0", 10), ("3", 3), ("2", 2)], [("0", 10), ("1", 4), ("3", 2)]) :=
  ⟨by decide, by decide⟩

/-- C3 (amended): `top3_possibilities` computes the ordered top-3 list — the
first three entries of a permutation of all indices sorted by non-increasing
score — and `predictions` merely computes and prints the baseline and
candidate top-3 lists side by side; no automated set comparison is performed
and no ranking-check verdict (failed or otherwise) is produced. -/
theorem c3_theorem (res : List ℚ) :
    List.Perm (sortIndicesDesc res) (List.range res.length) ∧
    List.Sorted (fun i j => res.getD j 0 ≤ res.getD i 0) (sortIndicesDesc res) ∧
    (∀ (softmaxPct : List ℚ → ℕ → ℚ) (labels : ℕ → String),
      top3_possibilities softmaxPct labels res =
        ((sortIndicesDesc res).take 3).map (fun idx => (labels idx, softmaxPct res idx))) ∧
    ∀ (T : Type) (softmaxPct : List ℚ → ℕ → ℚ) (labels : ℕ → String)
      (torch_func jit_func : T → List ℚ) (img : T),
      predictions softmaxPct labels torch_func jit_func img =
        (top3_possibilities softmaxPct labels (torch_func img),
         top3_possibilities softmaxPct labels (jit_func img)) := by
  refine ⟨List.perm_insertionSort _ _, ?_, fun _ _ => rfl, fun _ _ _ _ _ _ => rfl⟩
  haveI : IsTotal ℕ (fun i j => res.getD j 0 ≤ res.getD i 0) :=
    ⟨fun a b => le_total (res.getD b 0) (res.getD a 0)⟩
  haveI : IsTrans ℕ (fun i j => res.getD j 0 ≤ res.getD i 0) :=
    ⟨fun _ _ _ hab hbc => le_trans hbc hab⟩
  exact List.sorted_insertionSort _ _

/-- C5: the baseline call and the candidate call receive the same input value.
The tensor-to-numpy conversion between them is the identity on values, the
harness applies `torch_func` and `jit_func` to the one `img` it was given, and
consequently running the same executor on both paths yields identical golden
and candidate predictions. -/
theorem c5_theorem (T : Type) (softmaxPct : List ℚ → ℕ → ℚ) (labels : ℕ → String)
    (torch_func jit_func : T → List ℚ) (img : T) :
    tensorToNumpy img = img ∧
    predictions softmaxPct labels torch_func jit_func img =
      (top3_possibilities softmaxPct labels (torch_func img),
       top3_possibilities softmaxPct labels (jit_func img)) ∧
    (predictions softmaxPct labels torch_func torch_func img).1 =
      (predictions softmaxPct labels torch_func torch_func img).2 :=
  ⟨rfl, rfl, rfl⟩

/-- C6: `compile_and_load` fails in the compile domain exactly when the
external compile step fails, fails in the load domain exactly when the compile
step succeeds and the external load step fails on the compiled bytes, and has
no other failure mode. -/
theorem c6_theorem (B : IREEBackendModel) (m : String) :
    ((∃ e, compile_and_load B m = Except.error (HarnessError.compilationError e)) ↔
      ∃ e, B.compile_str m = Except.error e) ∧
    ((∃ e, compile_and_load B m = Except.error (HarnessError.loadError e)) ↔
      ∃ fb e, B.compile_str m = Except.ok fb ∧ B.from_flatbuffer fb = Except.error e) ∧
    ∀ err, compile_and_load B m = Except.error err →
      (∃ e, err = HarnessError.compilationError e) ∨
        (∃ e, err = HarnessError.loadError e) := by
  rcases hc : B.compile_str m with e | fb
  · refine ⟨?_, ?_, ?_⟩
    · simp [compile_and_load, backendCompile, hc]
    · simp [compile_and_load, backendCompile, hc]
    · intro err herr
      simp [compile_and_load, backendCompile, hc] at herr
      exact Or.inl ⟨e, herr.symm⟩
  · rcases hl : B.from_flatbuffer fb with e | mmod
    · refine ⟨?_, ?_, ?_⟩
      · simp [compile_and_load, backendCompile, backendLoad, hc, hl]
      · simp [compile_and_load, backendCompile, backendLoad, hc, hl]
      · intro err herr
        simp [compile_and_load, backendCompile, backendLoad, hc, hl] at herr
        exact Or.inr ⟨e, herr.symm⟩
    · refine ⟨?_, ?_, ?_⟩
      · simp [compile_and_load, backendCompile, backendLoad, hc, hl]
      · simp [compile_and_load, backendCompile, backendLoad, hc, hl]
      · intro err herr
        simp [compile_and_load, backendCompile, backendLoad, hc, hl] at herr

/-- C8: the end-to-end verdict is deterministic — if the baseline executor and
the candidate executor each return the same outputs on every run, then the
comparison verdict is the same on every run. -/
theorem c8_theorem (runBaseline runCandidate : ℕ → List (List ℚ))
    (hB : ∀ s t, runBaseline s = runBaseline t)
    (hC : ∀ s t, runCandidate s = runCandidate t) (s t : ℕ) :
    harnessVerdict runBaseline runCandidate s =
      harnessVerdict runBaseline runCandidate t := by
  simp only [harnessVerdict, hB s t, hC s t]

/-- C8 witness: two runs of a concrete deterministic baseline/candidate pair
get the same verdict. -/
theorem c8_witness :
    (∀ s t : ℕ, (fun _ : ℕ => ([[1]] : List (List ℚ))) s =
      (fun _ : ℕ => ([[1]] : List (List ℚ))) t) ∧
    harnessVerdict (fun _ => [[1]]) (fun _ => [[1]]) 0 =
      harnessVerdict (fun _ => [[1]]) (fun _ => [[1]]) 1 :=
  ⟨fun _ _ => rfl,
    c8_theorem (fun _ => [[1]]) (fun _ => [[1]]) (fun _ _ => rfl) (fun _ _ => rfl) 0 1⟩

/-- C9: attribute access on `IREEInvoker` never fails — `__getattr__` returns
the `invoke` closure for every name without validating it against the loaded
module — and for a name the module does not expose, the failure surfaces only
when the returned callable is invoked. -/
theorem c9_theorem (self : IREEInvoker) (function_name : String)
    (h : self.iree_module function_name = none) :
    getattrImpl self function_name = Except.ok (invoke self function_name) ∧
    ∀ args, invoke self function_name args =
      Except.error (InvokeError.unknownEntryPoint function_name) :=
  ⟨rfl, fun args => by simp only [invoke, h]⟩

/-- C9 witness: a module with no entry points still yields a callable for
`forward`, and calling it reports the unknown entry point. -/
theorem c9_witness :
    (IREEInvoker.mk (fun _ => none)).iree_module "forward" = none ∧
    (getattrImpl ⟨fun _ => none⟩ "forward" =
        Except.ok (invoke ⟨fun _ => none⟩ "forward") ∧
      ∀ args, invoke ⟨fun _ => none⟩ "forward" args =
        Except.error (InvokeError.unknownEntryPoint "forward")) :=
  ⟨rfl, c9_theorem _ _ rfl⟩

end IreeSamples
